import Mathlib

/-!
Shallow embedding of `src/src/lib.rs` (crate `eg-simple-status-messaging`).

The source is a single Rust file implementing `LedPrinter`:
  * `Direction` (lib.rs lines 26-30): `Left` / `Right`.  The spec calls
    `Right` "Forward" (offset increasing) and `Left` "Backward".
  * the inline scroll transition of `display_task` (lib.rs lines 61-76):
    given the current `x_pos`, `direction` and the rendered text `width`,
    produce the next pair; embedded here as `scrollStep`.
  * the tick accumulator of `display_task` (lib.rs lines 47-48, 55-80):
    `step_period = 10`, `previous_update` counts ticks; an update fires
    when `previous_update * step_period > spp`; embedded as `tickState`
    (scroll state and accumulator only) and `tickEvents` (the canvas /
    lock / sleep events of one loop iteration).
  * `new` (lib.rs lines 33-40) and `display` (lib.rs lines 88-105) of
    `LedPrinter`; `display` is embedded together with the ordered trace of
    lock / join / spawn events it performs.

Canvas pixels and colors are opaque to every property below, so a canvas
write is recorded as its `clear` / `paint offset` events; the painted
offset is the only data the claims mention.  `x_pos` is an `i32` in the
source and is embedded as `Int`; the values reached in all concrete runs
below stay far from the `i32` bounds, so no wrap-around modelling is
needed.
-/

namespace StatusMsg

set_option maxRecDepth 100000

/-- Embeds `enum Direction` (lib.rs lines 26-30). `Right` is the spec's
"Forward" (offset increasing), `Left` is "Backward". -/
inductive Direction where
  | Left : Direction
  | Right : Direction
deriving DecidableEq, Repr

/-- Direction flip, as performed by the two boundary branches of
lib.rs lines 63-64 and 70-71. -/
def Direction.toggle : Direction → Direction
  | Direction.Left => Direction.Right
  | Direction.Right => Direction.Left

/-- The scroll state of the animation task: the locals `x_pos` and
`direction` of `display_task` (lib.rs lines 45-46). -/
structure ScrollState where
  x_pos : Int
  direction : Direction
deriving DecidableEq, Repr

/-- Embeds the scroll transition written inline in `display_task`
(lib.rs lines 61-76): moving `Right`, increment `x_pos` unless it equals
`width`, in which case flip to `Left`; moving `Left`, decrement unless
`x_pos` is `0`, in which case flip to `Right`. -/
def scrollStep (width : Int) (s : ScrollState) : ScrollState :=
  match s.direction with
  | Direction.Left =>
      if s.x_pos = 0 then { s with direction := Direction.Right }
      else { s with x_pos := s.x_pos - 1 }
  | Direction.Right =>
      if s.x_pos = width then { s with direction := Direction.Left }
      else { s with x_pos := s.x_pos + 1 }

/-- Embeds `let step_period = 10;` (lib.rs line 47), the tick length in
milliseconds, also used as the multiplier of the accumulator test. -/
def step_period : Nat := 10

/-- One iteration of the `while running` loop of `display_task`
(lib.rs lines 55-80), restricted to the scroll state and the
`previous_update` accumulator: when `previous_update * step_period > spp`
the scroll state advances by `scrollStep` and the accumulator resets to
`0`; otherwise the accumulator increments. -/
def tickState (spp : Nat) (width : Int) (st : ScrollState × Nat) : ScrollState × Nat :=
  if st.2 * step_period > spp then (scrollStep width st.1, 0)
  else (st.1, st.2 + 1)

/-- The initial scroll state of every animation task: the locals are
initialised to `x_pos = 0` and `direction = Right` (lib.rs lines 45-46);
they are locals of `display_task`, so nothing of a previous request can
flow into them. -/
def taskInitialState : ScrollState := ⟨0, Direction.Right⟩

/-- Observable events of the frame loop: canvas write-lock acquisition
and release (`target.write()` and the explicit `drop` on lib.rs lines
51, 54, 57, 60), clearing, painting the text at an offset, the 10 ms
sleep (line 81), and the stop-flag check (lines 82-83). -/
inductive Event where
  | acquireWrite : Event
  | clear : Event
  | paint : Int → Event
  | releaseWrite : Event
  | sleep : Event
  | checkFlag : Event
deriving DecidableEq, Repr

/-- Event trace of one iteration of the `while running` loop
(lib.rs lines 55-85): on an update, acquire the write lock, clear, paint
at the current `x_pos`, drop the lock (lines 57-60), then advance the
state; afterwards, in both branches, sleep one tick and check the stop
flag (lines 81-83). -/
def tickEvents (spp : Nat) (width : Int) (st : ScrollState × Nat) : List Event :=
  if st.2 * step_period > spp then
    [Event.acquireWrite, Event.clear, Event.paint st.1.x_pos, Event.releaseWrite,
      Event.sleep, Event.checkFlag]
  else [Event.sleep, Event.checkFlag]

/-- Event trace of the priming render before the loop (lib.rs lines
51-54): acquire the write lock, clear, paint at the initial `x_pos = 0`,
drop the lock. -/
def primingEvents : List Event :=
  [Event.acquireWrite, Event.clear, Event.paint taskInitialState.x_pos, Event.releaseWrite]

/-- Event trace of `n` consecutive loop iterations starting from loop
state `st`. -/
def ticksEvents (spp : Nat) (width : Int) : ScrollState × Nat → Nat → List Event
  | _, 0 => []
  | st, n + 1 => tickEvents spp width st ++ ticksEvents spp width (tickState spp width st) n

/-- Full event trace of a task run: the priming render followed by `n`
loop iterations from the initial state. -/
def runEvents (spp : Nat) (width : Int) (n : Nat) : List Event :=
  primingEvents ++ ticksEvents spp width (taskInitialState, 0) n

/-- Checks a trace for write-lock discipline: every `acquireWrite` must be
followed immediately by exactly `clear`, one `paint`, and `releaseWrite`,
and no `releaseWrite` may appear outside such a span.  A trace accepted by
this checker holds the write lock only for the span of a single
clear-plus-paint, and in particular never across a `sleep`. -/
def writeSpanOk : List Event → Bool
  | [] => true
  | Event.acquireWrite :: Event.clear :: Event.paint _ :: Event.releaseWrite :: rest =>
      writeSpanOk rest
  | Event.acquireWrite :: _ => false
  | Event.releaseWrite :: _ => false
  | _ :: rest => writeSpanOk rest

/-- The sequence of offsets painted along a trace. -/
def paintedOf : List Event → List Int
  | [] => []
  | Event.paint x :: rest => x :: paintedOf rest
  | _ :: rest => paintedOf rest

/-- Controller-side events of one `display` call (lib.rs lines 88-105):
locking and writing the shared `display_task_controller` mutex, joining
the previous task, and spawning the new one. -/
inductive CtrlEvent where
  | lockAcquire : CtrlEvent
  | setRunning : Bool → CtrlEvent
  | lockRelease : CtrlEvent
  | join : Nat → CtrlEvent
  | spawn : Nat → CtrlEvent
deriving DecidableEq, Repr

/-- Embeds `struct LedPrinter` (lib.rs lines 18-24).  The `Arc<RwLock>`
draw target is an opaque handle; `display_task` is the optional handle of
the running task (tasks are named by `Nat` ids); `display_task_controller`
is the boolean behind the `Arc<Mutex<bool>>`. -/
structure LedPrinter where
  draw_target : Nat
  scroll_spp_ms : Nat
  display_task : Option Nat
  display_task_controller : Bool
deriving DecidableEq, Repr

/-- Embeds `LedPrinter::new` (lib.rs lines 33-40): the body is a single
`Ok(..)` constructing the printer with no task and the stop flag `false`;
the `Result` error type is the canvas error type `E`, and no path of the
body produces an `Err`. -/
def new (target : Nat) (scroll_ms_per_pixel : Nat) : Except String LedPrinter :=
  Except.ok
    { draw_target := target
      scroll_spp_ms := scroll_ms_per_pixel
      display_task := none
      display_task_controller := false }

/-- Embeds `LedPrinter::display` (lib.rs lines 88-105) together with the
ordered trace of its controller events: if a previous task handle is
held, lock the controller mutex, set it `false`, drop the guard, and
`join` the handle (lines 89-95); then lock again, set `true` (lines
96-98), spawn the new task (line 104), and release the guard when the
function returns.  `newId` names the freshly spawned task. -/
def display (p : LedPrinter) (newId : Nat) : LedPrinter × List CtrlEvent :=
  let stopEvents : List CtrlEvent :=
    match p.display_task with
    | some h => [CtrlEvent.lockAcquire, CtrlEvent.setRunning false, CtrlEvent.lockRelease,
        CtrlEvent.join h]
    | none => []
  ({ p with display_task := some newId, display_task_controller := true },
    stopEvents ++ [CtrlEvent.lockAcquire, CtrlEvent.setRunning true, CtrlEvent.spawn newId,
      CtrlEvent.lockRelease])

/-- The scroll state and accumulator, after `n` loop iterations, of the
task spawned by `display` on printer `p` for a text of rendered width
`width`.  The run is a function of the printer's `scroll_spp_ms` and the
width alone, starting from `taskInitialState`. -/
def spawnedTaskState (p : LedPrinter) (width : Int) (n : Nat) : ScrollState × Nat :=
  (tickState p.scroll_spp_ms width)^[n] (taskInitialState, 0)

/-- Preservation of the scroll range by one step: embedded directly from
the four branches of lib.rs lines 61-76. -/
theorem scrollStep_bounds (w : Int) (s : ScrollState) (hw : 0 ≤ w)
    (h0 : 0 ≤ s.x_pos) (h1 : s.x_pos ≤ w) :
    0 ≤ (scrollStep w s).x_pos ∧ (scrollStep w s).x_pos ≤ w := by
  rcases s with ⟨x, d⟩
  cases d <;> simp only [scrollStep] <;> split <;> simp_all <;> omega

/-- Claim C1 (amended): for every `content_width ≥ 0` and every initial
`ScrollState` whose offset already lies in `[0, content_width]`,
repeatedly applying the scroll transition of lib.rs lines 61-76 keeps the
offset inside `[0, content_width]`. -/
theorem c1_offset_stays_in_range (w : Int) (hw : 0 ≤ w) (s : ScrollState)
    (h0 : 0 ≤ s.x_pos) (h1 : s.x_pos ≤ w) (n : Nat) :
    0 ≤ ((scrollStep w)^[n] s).x_pos ∧ ((scrollStep w)^[n] s).x_pos ≤ w := by
  induction n generalizing s with
  | zero => exact ⟨h0, h1⟩
  | succ n ih =>
      rw [Function.iterate_succ_apply]
      rcases scrollStep_bounds w s hw h0 h1 with ⟨g0, g1⟩
      exact ih (scrollStep w s) g0 g1

/-- Witness for C1: the interval `[0, 3]` is preserved over 5 steps from
offset 2 moving Forward. -/
theorem c1_offset_stays_in_range_witness :
    0 ≤ ((scrollStep 3)^[5] ⟨2, Direction.Right⟩).x_pos ∧
      ((scrollStep 3)^[5] ⟨2, Direction.Right⟩).x_pos ≤ 3 :=
  c1_offset_stays_in_range 3 (by decide) ⟨2, Direction.Right⟩ (by decide) (by decide) 5

/-- Counterexample to C1 as stated: with `content_width = 0` and initial
`ScrollState` `(1, Forward)` — an initial state the claim quantifies
over — one application of the scroll transition produces offset `2`,
outside `[0, 0]`. -/
theorem c1_counterexample :
    scrollStep 0 ⟨1, Direction.Right⟩ = ⟨2, Direction.Right⟩ ∧
      ¬ ((scrollStep 0 ⟨1, Direction.Right⟩).x_pos ≤ 0) := by
  constructor <;> decide

/-- Claim C5: for `content_width = 0`, starting from offset `0`, each
scroll step leaves the offset at `0` and toggles the direction; after `n`
steps the state is exactly `(0, toggle^[n] d)`. -/
theorem c5_width_zero_offset_fixed_direction_toggles :
    (∀ d : Direction, scrollStep 0 ⟨0, d⟩ = ⟨0, d.toggle⟩) ∧
      (∀ (n : Nat) (d : Direction),
        (scrollStep 0)^[n] ⟨0, d⟩ = ⟨0, Direction.toggle^[n] d⟩) := by
  have hstep : ∀ d : Direction, scrollStep 0 ⟨0, d⟩ = ⟨0, d.toggle⟩ := by
    intro d; cases d <;> rfl
  refine ⟨hstep, ?_⟩
  intro n
  induction n with
  | zero => intro d; rfl
  | succ n ih =>
      intro d
      rw [Function.iterate_succ_apply', Function.iterate_succ_apply', ih d, hstep]

/-- Boundary behaviour of one scroll step (lib.rs lines 61-76): at a
boundary the step only flips the direction and keeps the offset; when
`0 < width`, the step following a boundary flip moves the offset by one
pixel. -/
theorem c10_boundary_flip_then_move :
    (∀ (w : Int) (s : ScrollState),
      (s.direction = Direction.Right ∧ s.x_pos = w) ∨
        (s.direction = Direction.Left ∧ s.x_pos = 0) →
      scrollStep w s = ⟨s.x_pos, s.direction.toggle⟩) ∧
      (∀ w : Int, 0 < w →
        scrollStep w (scrollStep w ⟨w, Direction.Right⟩) = ⟨w - 1, Direction.Left⟩ ∧
          scrollStep w (scrollStep w ⟨0, Direction.Left⟩) = ⟨1, Direction.Right⟩) := by
  constructor
  · rintro w ⟨x, d⟩ (⟨hd, hx⟩ | ⟨hd, hx⟩) <;>
      simp_all [scrollStep, Direction.toggle]
  · intro w hw
    have hne : w ≠ 0 := by omega
    constructor
    · simp [scrollStep, hne]
    · simp [scrollStep, hne.symm]

/-- Witness for C10 (amended): at width 5 the Forward boundary flips in
place, and the following step moves one pixel Backward. -/
theorem c10_boundary_flip_then_move_witness :
    scrollStep 5 ⟨5, Direction.Right⟩ =
        ⟨(⟨5, Direction.Right⟩ : ScrollState).x_pos, Direction.Right.toggle⟩ ∧
      scrollStep 5 (scrollStep 5 ⟨5, Direction.Right⟩) = ⟨5 - 1, Direction.Left⟩ :=
  ⟨c10_boundary_flip_then_move.1 5 ⟨5, Direction.Right⟩ (Or.inl ⟨rfl, rfl⟩),
    (c10_boundary_flip_then_move.2 5 (by decide)).1⟩

/-- Counterexample to C10 as stated: with `content_width = 0`, after the
flip at the Backward boundary `(0, Backward)` the following step flips
again and moves nothing, so the offset does not resume moving by one
pixel on the following step and the dwell is not one extra update
period. -/
theorem c10_counterexample :
    scrollStep 0 ⟨0, Direction.Left⟩ = ⟨0, Direction.Right⟩ ∧
      scrollStep 0 (scrollStep 0 ⟨0, Direction.Left⟩) = ⟨0, Direction.Left⟩ := by
  constructor <;> decide

/-- Eight idle ticks from a freshly reset accumulator only count the
accumulator up to 8: for every `previous_update` in `0..7` the test
`previous_update * 10 > 75` fails. -/
theorem eight_idle_ticks (s : ScrollState) : (tickState 75 50)^[8] (s, 0) = (s, 8) := by
  show (tickState 75 50)^[7 + 1] (s, 0) = (s, 8)
  rw [Function.iterate_succ_apply]
  show (tickState 75 50)^[6 + 1] (s, 1) = (s, 8)
  rw [Function.iterate_succ_apply]
  show (tickState 75 50)^[5 + 1] (s, 2) = (s, 8)
  rw [Function.iterate_succ_apply]
  show (tickState 75 50)^[4 + 1] (s, 3) = (s, 8)
  rw [Function.iterate_succ_apply]
  show (tickState 75 50)^[3 + 1] (s, 4) = (s, 8)
  rw [Function.iterate_succ_apply]
  show (tickState 75 50)^[2 + 1] (s, 5) = (s, 8)
  rw [Function.iterate_succ_apply]
  show (tickState 75 50)^[1 + 1] (s, 6) = (s, 8)
  rw [Function.iterate_succ_apply]
  show (tickState 75 50)^[0 + 1] (s, 7) = (s, 8)
  rw [Function.iterate_succ_apply]
  rfl

/-- Nine ticks from a freshly reset accumulator perform exactly one
scroll update, on the ninth tick (`8 * 10 > 75`), and reset the
accumulator. -/
theorem nine_ticks_one_update (s : ScrollState) :
    (tickState 75 50)^[9] (s, 0) = (scrollStep 50 s, 0) := by
  show (tickState 75 50)^[8 + 1] (s, 0) = (scrollStep 50 s, 0)
  rw [Function.iterate_succ_apply', eight_idle_ticks s]
  rfl

/-- Iterating blocks of nine ticks: after `9 * k` ticks the scroll state
has advanced by exactly `k` scroll steps. -/
theorem nine_ticks_blocks (k : Nat) (s : ScrollState) :
    (tickState 75 50)^[9 * k] (s, 0) = ((scrollStep 50)^[k] s, 0) := by
  induction k generalizing s with
  | zero => simp
  | succ k ih =>
      rw [show 9 * (k + 1) = 9 + 9 * k by ring, Function.iterate_add_apply, ih,
        nine_ticks_one_update, Function.iterate_succ_apply']

/-- Claim C2 (amended): with width `50`, `spp = 75` and tick `10` ms
(lib.rs line 47), the loop advances the offset once every 9 ticks — the
first tick at which the accumulated tick-time `previous_update * 10`
strictly exceeds `75` — so the offset reaches `50` at tick `9 * 50 = 450`,
reverses at tick 459, and the state returns to the initial `(0, Forward)`
after `102 * 9 = 918` ticks (50 advances up, one flip, 50 advances down,
one flip). -/
theorem c2_timing_75ms :
    (∀ s : ScrollState, (tickState 75 50)^[9] (s, 0) = (scrollStep 50 s, 0)) ∧
      ((tickState 75 50)^[450] (⟨0, Direction.Right⟩, 0)).1 = ⟨50, Direction.Right⟩ ∧
      ((tickState 75 50)^[459] (⟨0, Direction.Right⟩, 0)).1 = ⟨50, Direction.Left⟩ ∧
      (tickState 75 50)^[918] (⟨0, Direction.Right⟩, 0) = (⟨0, Direction.Right⟩, 0) := by
  refine ⟨nine_ticks_one_update, ?_, ?_, ?_⟩
  · rw [show (450 : Nat) = 9 * 50 from rfl, nine_ticks_blocks]
    decide
  · rw [show (459 : Nat) = 9 * 51 from rfl, nine_ticks_blocks]
    decide
  · rw [show (918 : Nat) = 9 * 102 from rfl, nine_ticks_blocks]
    decide

/-- Counterexample to C2 as stated: after `2 × 50 × 8 = 800` ticks the
loop has fired `⌊800 / 9⌋ = 88` updates, leaving the state at
`(13, Backward)` with 8 ticks accumulated, not at the initial
`(0, Forward)`. -/
theorem c2_counterexample :
    ((tickState 75 50)^[800] (⟨0, Direction.Right⟩, 0)).1 = ⟨13, Direction.Left⟩ ∧
      ((tickState 75 50)^[800] (⟨0, Direction.Right⟩, 0)).1 ≠ ⟨0, Direction.Right⟩ := by
  have h : (tickState 75 50)^[800] (⟨0, Direction.Right⟩, 0) =
      ((scrollStep 50)^[88] ⟨0, Direction.Right⟩, 8) := by
    rw [show (800 : Nat) = 8 + 9 * 88 from rfl, Function.iterate_add_apply,
      nine_ticks_blocks, eight_idle_ticks]
  rw [h]
  constructor <;> decide

/-- Claim C4 (amended): with `spp = 0` the accumulator test
`previous_update * 10 > 0` fails on the first tick after a reset and
succeeds on the second, so the offset advances once every two ticks — the
minimum scroll period is twice the tick period — and after `2 * n` ticks
the state is exactly `n` scroll steps; the test is a multiplication, so
no division by zero can occur. -/
theorem c4_spp_zero_advances_every_other_tick :
    (∀ (w : Int) (s : ScrollState),
      tickState 0 w (s, 0) = (s, 1) ∧ tickState 0 w (s, 1) = (scrollStep w s, 0)) ∧
      (∀ (w : Int) (s : ScrollState) (n : Nat),
        (tickState 0 w)^[2 * n] (s, 0) = ((scrollStep w)^[n] s, 0)) := by
  refine ⟨fun w s => ⟨rfl, rfl⟩, ?_⟩
  intro w s n
  induction n with
  | zero => rfl
  | succ n ih =>
      rw [show 2 * (n + 1) = 2 + 2 * n by ring, Function.iterate_add_apply, ih]
      show (tickState 0 w)^[1 + 1] ((scrollStep w)^[n] s, 0) = _
      rw [Function.iterate_succ_apply]
      show (tickState 0 w)^[1] ((scrollStep w)^[n] s, 1) = _
      rw [Function.iterate_one]
      show (scrollStep w ((scrollStep w)^[n] s), 0) = _
      rw [Function.iterate_succ_apply']

/-- Counterexample to C4 as stated: with `spp = 0` the very first tick
does not advance the offset (the accumulator is still `0` and
`0 * 10 > 0` is false), so the loop does not advance on every tick; after
two ticks only one advance has happened. -/
theorem c4_counterexample :
    tickState 0 50 (⟨0, Direction.Right⟩, 0) = (⟨0, Direction.Right⟩, 1) ∧
      ((tickState 0 50)^[2] (⟨0, Direction.Right⟩, 0)).1 = ⟨1, Direction.Right⟩ := by
  constructor <;> decide

/-- One loop iteration keeps the write-lock discipline of the trace
checker: its events are either a complete acquire-clear-paint-release
span followed by sleep and flag check, or just sleep and flag check. -/
theorem writeSpanOk_tick (spp : Nat) (width : Int) (st : ScrollState × Nat)
    (rest : List Event) :
    writeSpanOk (tickEvents spp width st ++ rest) = writeSpanOk rest := by
  unfold tickEvents
  split <;> rfl

/-- Any number of loop iterations keeps the write-lock discipline. -/
theorem writeSpanOk_ticks (spp : Nat) (width : Int) (n : Nat) (st : ScrollState × Nat) :
    writeSpanOk (ticksEvents spp width st n) = true := by
  induction n generalizing st with
  | zero => rfl
  | succ n ih =>
      show writeSpanOk (tickEvents spp width st ++
        ticksEvents spp width (tickState spp width st) n) = true
      rw [writeSpanOk_tick]
      exact ih (tickState spp width st)

/-- Claim C9: for every `spp`, width, and number of ticks, the full event
trace of a task run — the priming render followed by the loop — holds the
canvas write lock only for the span of a single clear-plus-paint, and in
particular never across a sleep: every `acquireWrite` is immediately
followed by `clear`, one `paint`, and `releaseWrite`, so the lock is
free at every `sleep` event. -/
theorem c9_write_lock_never_held_across_sleep (spp : Nat) (width : Int) (n : Nat) :
    writeSpanOk (runEvents spp width n) = true := by
  unfold runEvents
  show writeSpanOk (primingEvents ++ ticksEvents spp width (taskInitialState, 0) n) = true
  rw [show writeSpanOk (primingEvents ++ ticksEvents spp width (taskInitialState, 0) n) =
    writeSpanOk (ticksEvents spp width (taskInitialState, 0) n) from rfl]
  exact writeSpanOk_ticks spp width n (taskInitialState, 0)

/-- Claim C3 (amended): on an update tick (`previous_update * 10 > spp`)
the loop acquires the write lock, clears, paints at the CURRENT offset
`s.x_pos`, releases the lock, and only afterwards advances the
`ScrollState` by `scrollStep` and resets the accumulator; hence the
offset painted in an updated frame is the offset produced by the
previous update's advance, and the first updated frame repaints offset
`0`, the offset already painted during priming. -/
theorem c3_update_paints_current_then_advances (spp : Nat) (width : Int)
    (s : ScrollState) (pu : Nat) (h : pu * step_period > spp) :
    tickEvents spp width (s, pu) =
      [Event.acquireWrite, Event.clear, Event.paint s.x_pos, Event.releaseWrite,
        Event.sleep, Event.checkFlag] ∧
      tickState spp width (s, pu) = (scrollStep width s, 0) := by
  constructor
  · unfold tickEvents
    rw [if_pos h]
  · unfold tickState
    rw [if_pos h]

/-- Witness for C3 (amended): at `spp = 75`, width 50, accumulator 8,
the update paints the current offset `0` and only then advances the
state. -/
theorem c3_update_paints_current_then_advances_witness :
    tickEvents 75 50 (⟨0, Direction.Right⟩, 8) =
      [Event.acquireWrite, Event.clear, Event.paint 0, Event.releaseWrite,
        Event.sleep, Event.checkFlag] ∧
      tickState 75 50 (⟨0, Direction.Right⟩, 8) = (scrollStep 50 ⟨0, Direction.Right⟩, 0) :=
  c3_update_paints_current_then_advances 75 50 ⟨0, Direction.Right⟩ 8 (by decide)

/-- Counterexample to C3 as stated: running 9 ticks at `spp = 75`, width
50 (through the first update), the painted offsets are `[0, 0]` — the
updated frame repaints the very offset already painted during priming —
while the advanced (next) offset after that update is `1`, which was not
painted. -/
theorem c3_counterexample :
    paintedOf (runEvents 75 50 9) = [0, 0] ∧
      ((tickState 75 50)^[9] (⟨0, Direction.Right⟩, 0)).1 = ⟨1, Direction.Right⟩ := by
  constructor <;> decide

/-- Claim C8: `new` builds a printer whose stored task handle is absent
and whose stop flag is `false`, and it never returns an error at all —
a fortiori it fails only if the canvas capability cannot be acquired,
the only error its `Result` type can propagate. -/
theorem c8_new_no_task_not_running (target : Nat) (spp : Nat) :
    new target spp =
      Except.ok
        { draw_target := target
          scroll_spp_ms := spp
          display_task := none
          display_task_controller := false } := rfl

/-- Claim C6: when a previous task handle `h` is held, `display` emits,
in program order: lock, set the stop flag `false`, release the lock, join
task `h`, then lock, set the flag `true`, and spawn the new task; the
`join` of the previous task strictly precedes the `spawn` of the new one
in the trace, so the previous task's exit happens-before the new task's
first canvas write. -/
theorem c6_display_joins_before_spawn (p : LedPrinter) (h : Nat) (id : Nat)
    (hprev : p.display_task = some h) :
    (display p id).2 =
      [CtrlEvent.lockAcquire, CtrlEvent.setRunning false, CtrlEvent.lockRelease,
        CtrlEvent.join h, CtrlEvent.lockAcquire, CtrlEvent.setRunning true,
        CtrlEvent.spawn id, CtrlEvent.lockRelease] ∧
      (∃ i j : Nat, i < j ∧ (display p id).2[i]? = some (CtrlEvent.join h) ∧
        (display p id).2[j]? = some (CtrlEvent.spawn id)) := by
  have ht : (display p id).2 =
      [CtrlEvent.lockAcquire, CtrlEvent.setRunning false, CtrlEvent.lockRelease,
        CtrlEvent.join h, CtrlEvent.lockAcquire, CtrlEvent.setRunning true,
        CtrlEvent.spawn id, CtrlEvent.lockRelease] := by
    simp [display, hprev]
  refine ⟨ht, 3, 6, by norm_num, ?_, ?_⟩ <;> rw [ht] <;> rfl

/-- Witness for C6: a printer holding task handle 7; displaying task 8
joins 7 before spawning 8. -/
theorem c6_display_joins_before_spawn_witness :
    (display
        { draw_target := 0
          scroll_spp_ms := 75
          display_task := some 7
          display_task_controller := true } 8).2 =
      [CtrlEvent.lockAcquire, CtrlEvent.setRunning false, CtrlEvent.lockRelease,
        CtrlEvent.join 7, CtrlEvent.lockAcquire, CtrlEvent.setRunning true,
        CtrlEvent.spawn 8, CtrlEvent.lockRelease] ∧
      (∃ i j : Nat, i < j ∧
        (display
          { draw_target := 0
            scroll_spp_ms := 75
            display_task := some 7
            display_task_controller := true } 8).2[i]? = some (CtrlEvent.join 7) ∧
        (display
          { draw_target := 0
            scroll_spp_ms := 75
            display_task := some 7
            display_task_controller := true } 8).2[j]? = some (CtrlEvent.spawn 8)) :=
  c6_display_joins_before_spawn _ 7 8 rfl

/-- Claim C7: the animation task's scroll state is initialised to offset
`0`, direction Forward (`Right`) — the locals of `display_task`, lib.rs
lines 45-46 — and the spawned task's run is a function of the configured
`scroll_spp_ms` and the text width alone: two printers with equal
`scroll_spp_ms` but arbitrarily different task histories spawn tasks
with identical runs, so nothing of a previous request carries over. -/
theorem c7_fresh_scroll_state (p q : LedPrinter) (width : Int) (n : Nat)
    (hspp : p.scroll_spp_ms = q.scroll_spp_ms) :
    (spawnedTaskState p width 0).1 = ⟨0, Direction.Right⟩ ∧
      spawnedTaskState p width n = spawnedTaskState q width n := by
  constructor
  · rfl
  · unfold spawnedTaskState
    rw [hspp]

/-- Witness for C7: a printer that held task 3 with the flag up and a
fresh printer with no task spawn identical 20-tick runs, both starting
at `(0, Forward)`. -/
theorem c7_fresh_scroll_state_witness :
    (spawnedTaskState
        { draw_target := 0
          scroll_spp_ms := 75
          display_task := some 3
          display_task_controller := true } 50 0).1 = ⟨0, Direction.Right⟩ ∧
      spawnedTaskState
          { draw_target := 0
            scroll_spp_ms := 75
            display_task := some 3
            display_task_controller := true } 50 20 =
        spawnedTaskState
          { draw_target := 0
            scroll_spp_ms := 75
            display_task := none
            display_task_controller := false } 50 20 :=
  c7_fresh_scroll_state _ _ 50 20 rfl

end StatusMsg
